import Mathlib

/-!
Verification of the rime wasm bridge (`src/wasm/binding/rime_wasm.cpp`).

The bridge projects the state of a librime session into a JSON object
("snapshot") after each mutating operation.  We embed the projector
`build_state` and the exported operations shallowly:

* Native C strings are modelled as `Str := List Char`, one element per
  byte (a C string holds no NUL byte, so the list is the sequence of
  bytes before the terminator).  A null `char*` is `Option.none`.
* The boost JSON tree is modelled by the inductive `Json`; a
  `boost::json::object` is an association list in insertion order
  (all keys inserted by the bridge are distinct, so insertion order
  equals the final contents).
* The librime engine is an external capability.  Its answers to
  `get_commit` / `get_context` are inputs of `build_state`, and the
  calls the bridge makes into the engine are recorded in a trace of
  `ApiCall`s, in program order.
* C `int` fields are modelled as `Int`; the implicit conversion of an
  `int` to `size_t` at the `std::string::substr` call sites (wasm32:
  both 32 bits wide) is `asSizeT`.
-/

/-- A native C string: the bytes before the NUL terminator. -/
abbrev Str := List Char

/-- boost JSON values, as far as the bridge builds them. -/
inductive Json where
  | null
  | str (s : Str)
  | int (n : Int)
  | bool (b : Bool)
  | arr (a : List Json)
  | obj (o : List (String × Json))

/-- A `boost::json::object` in insertion order. -/
abbrev JsonObject := List (String × Json)

/-- Association-list lookup, the contents of a serialized object. -/
def jget (o : JsonObject) (k : String) : Option Json :=
  match o with
  | [] => none
  | (k1, v) :: rest => if k1 = k then some v else jget rest k

/-- The string stored at key `k` (empty if absent or not a string). -/
def jstr (o : JsonObject) (k : String) : Str :=
  match jget o k with
  | some (Json.str s) => s
  | _ => []

/-- The array stored at key `k` (empty if absent or not an array). -/
def jarr (o : JsonObject) (k : String) : List Json :=
  match jget o k with
  | some (Json.arr a) => a
  | _ => []

/-- One entry of `RimeContext.menu.candidates`: `text` and `comment`
are nullable `char*`. -/
structure RimeCandidate where
  text : Option Str
  comment : Option Str

/-- `RimeComposition`: `length`, `cursor_pos`, `sel_start`, `sel_end`
are C `int` byte offsets, `preedit` a nullable `char*`. -/
structure RimeComposition where
  length : Int
  cursor_pos : Int
  sel_start : Int
  sel_end : Int
  preedit : Option Str

/-- `RimeMenu`.  The C struct exposes `candidates` as a pointer plus a
count `num_candidates`; we model the array of `num_candidates` entries
read by the bridge as the list `candidates` (so `num_candidates` is
`candidates.length`).  `select_keys` is a nullable `char*`. -/
structure RimeMenu where
  page_no : Int
  is_last_page : Bool
  highlighted_candidate_index : Int
  candidates : List RimeCandidate
  select_keys : Option Str

/-- `RimeContext`: composition, menu and the optional explicit
per-candidate label array `select_labels` (`char**`, each entry a
nullable `char*`; entries beyond the provided list read as null). -/
structure RimeContext where
  composition : RimeComposition
  menu : RimeMenu
  select_labels : Option (List (Option Str))

/-- Calls the bridge makes into the engine capability, in program
order. -/
inductive ApiCall where
  | free_commit
  | get_commit (session : Nat)
  | free_context
  | get_context (session : Nat)
  | simulate_key_sequence (session : Nat) (keys : Str)
  | select_candidate_on_current_page (session : Nat) (index : Int)
  | change_page (session : Nat) (backward : Bool)
  deriving DecidableEq

/-- Conversion of a C `int` to `size_t` (32-bit on wasm32). -/
def asSizeT (i : Int) : Nat := (i % (2 ^ 32)).toNat

/-- `std::string::substr(pos, count)` on the byte list. -/
def substr (s : Str) (pos count : Nat) : Str := (s.drop pos).take count

/-- `std::string::substr(pos)` on the byte list. -/
def substrFrom (s : Str) (pos : Nat) : Str := s.drop pos

/-- The fallback label loop of `build_state` (lines 78-85):
`for (i = 0; keys[i] && i < num_candidates; ++i)` pushes the
single-character string `keys[i]`; it stops at the end of the key
string or at the candidate count, whichever comes first. -/
def labelsFromKeys : Str → Nat → List Json
  | _, 0 => []
  | [], _ => []
  | c :: rest, n + 1 => Json.str [c] :: labelsFromKeys rest n

/-- The explicit label loop of `build_state` (lines 72-77): one label
per candidate index, an absent (null) entry becoming `""`. -/
def explicitLabels (ls : List (Option Str)) (num : Nat) : List Json :=
  (List.range num).map fun i => Json.str (((ls[i]?).getD none).getD [])

/-- The select-label fallback chain of `build_state` (lines 70-85). -/
def selectLabelsOf (ctx : RimeContext) : List Json :=
  match ctx.select_labels with
  | some ls => explicitLabels ls ctx.menu.candidates.length
  | none =>
    match ctx.menu.select_keys with
    | some keys => labelsFromKeys keys ctx.menu.candidates.length
    | none => []

/-- `build_state` (lines 24-100): frees and reacquires the commit and
the context, then builds the snapshot object.  Inputs are the engine's
answers: `has_commit` and `commit_text` from `get_commit`, `ctx` from
`get_context`.  Returns the trace of engine calls and the object. -/
def build_state (session : Nat) (has_commit : Bool)
    (commit_text : Option Str) (ctx : RimeContext) :
    List ApiCall × JsonObject :=
  ([ApiCall.free_commit, ApiCall.get_commit session,
    ApiCall.free_context, ApiCall.get_context session],
   ("committed",
      match has_commit, commit_text with
      | true, some t => Json.str t
      | _, _ => Json.null) ::
   (if 0 < ctx.composition.length ∧ ctx.composition.preedit.isSome then
      [("preeditHead",
          Json.str (substr (ctx.composition.preedit.getD []) 0
            (asSizeT ctx.composition.sel_start))),
       ("preeditBody",
          Json.str (substr (ctx.composition.preedit.getD [])
            (asSizeT ctx.composition.sel_start)
            (asSizeT (ctx.composition.sel_end - ctx.composition.sel_start)))),
       ("preeditTail",
          Json.str (substrFrom (ctx.composition.preedit.getD [])
            (asSizeT ctx.composition.sel_end))),
       ("cursorPos", Json.int ctx.composition.cursor_pos),
       ("candidates", Json.arr (ctx.menu.candidates.map fun c =>
          Json.obj [("text", Json.str (c.text.getD [])),
                    ("comment", Json.str (c.comment.getD []))])),
       ("pageNo", Json.int ctx.menu.page_no),
       ("isLastPage", Json.bool ctx.menu.is_last_page),
       ("highlightedIndex", Json.int ctx.menu.highlighted_candidate_index),
       ("selectLabels", Json.arr (selectLabelsOf ctx))]
    else
      [("preeditHead", Json.str []),
       ("preeditBody", Json.str []),
       ("preeditTail", Json.str []),
       ("cursorPos", Json.int 0),
       ("candidates", Json.arr []),
       ("pageNo", Json.int 0),
       ("isLastPage", Json.bool true),
       ("highlightedIndex", Json.int 0),
       ("selectLabels", Json.arr [])]))

/-- `rime_wasm_process_input` (lines 138-145).  `api` is whether the
engine capability pointer is non-null, `session` the session id (0 =
none), `keys` the nullable argument.  `"{}"` is the empty object. -/
def rime_wasm_process_input (api : Bool) (session : Nat)
    (keys : Option Str) (has_commit : Bool) (commit_text : Option Str)
    (ctx : RimeContext) : List ApiCall × JsonObject :=
  if api = false ∨ session = 0 ∨ keys = none then ([], [])
  else
    let st := build_state session has_commit commit_text ctx
    (ApiCall.simulate_key_sequence session (keys.getD []) :: st.1, st.2)

/-- `rime_wasm_pick_candidate` (lines 147-154): forwards `index` to
`select_candidate_on_current_page` unchanged, then projects. -/
def rime_wasm_pick_candidate (api : Bool) (session : Nat) (index : Int)
    (has_commit : Bool) (commit_text : Option Str)
    (ctx : RimeContext) : List ApiCall × JsonObject :=
  if api = false ∨ session = 0 then ([], [])
  else
    let st := build_state session has_commit commit_text ctx
    (ApiCall.select_candidate_on_current_page session index :: st.1, st.2)

/-- `rime_wasm_flip_page` (lines 156-163): `backward` is a C `int`
flag, forwarded as `backward ? True : False`. -/
def rime_wasm_flip_page (api : Bool) (session : Nat) (backward : Int)
    (has_commit : Bool) (commit_text : Option Str)
    (ctx : RimeContext) : List ApiCall × JsonObject :=
  if api = false ∨ session = 0 then ([], [])
  else
    let st := build_state session has_commit commit_text ctx
    (ApiCall.change_page session (decide (backward ≠ 0)) :: st.1, st.2)

/-- The keys of the Snapshot definition, in the order `build_state`
inserts them. -/
def snapshotKeys : List String :=
  ["committed", "preeditHead", "preeditBody", "preeditTail",
   "cursorPos", "candidates", "pageNo", "isLastPage",
   "highlightedIndex", "selectLabels"]

/-- A serialized object's `committed` entry is a string or a null. -/
def committedOk (o : JsonObject) : Prop :=
  jget o "committed" = some Json.null ∨
    ∃ s0, jget o "committed" = some (Json.str s0)

/-- Modelled from the spec: the engine capability's session
bookkeeping (librime itself is an external collaborator, not part of
this module's sources).  `liveSessions` lists the session ids the
engine currently holds, `nextSession` is the next fresh id, `started`
whether the service is running. -/
structure EngineState where
  started : Bool
  liveSessions : List Nat
  nextSession : Nat
  deriving DecidableEq

/-- Modelled from the spec: `setup` configures the engine; the spec
gives it no effect on sessions. -/
def rime_setup (e : EngineState) : EngineState := e

/-- Modelled from the spec: the engine's service start call (line 122);
the spec's capability operation list gives it no effect on existing
sessions. -/
def rime_start_service (e : EngineState) : EngineState :=
  { e with started := true }

/-- Modelled from the spec: synchronous schema deployment (line 125);
no session effect. -/
def rime_start_maintenance (e : EngineState) : EngineState := e

/-- Modelled from the spec: `create_session` returns a fresh session
id and registers it, or 0 on failure (`ok` abstracts success). -/
def rime_create_session (ok : Bool) (e : EngineState) : Nat × EngineState :=
  if ok then
    (e.nextSession,
     { e with liveSessions := e.liveSessions ++ [e.nextSession],
              nextSession := e.nextSession + 1 })
  else (0, e)

/-- Modelled from the spec: `destroy_session` destroys the given
session on the engine side. -/
def rime_destroy_session (e : EngineState) (sid : Nat) : EngineState :=
  { e with liveSessions := e.liveSessions.erase sid }

/-- Modelled from the spec: `finalize` releases the engine capability;
the spec's operation list does not make it destroy sessions (the
bridge destroys its session explicitly). -/
def rime_finalize (e : EngineState) : EngineState :=
  { e with started := false }

/-- The bridge's globals (lines 12-17) plus the engine model: `api` is
whether the capability pointer is non-null, `session` the held session
id (0 = none). -/
structure BridgeState where
  api : Bool
  session : Nat
  engine_started : Bool
  engine : EngineState
  deriving DecidableEq

/-- The state before any exported operation runs. -/
def initialState : BridgeState :=
  { api := false, session := 0, engine_started := false,
    engine := { started := false, liveSessions := [], nextSession := 1 } }

/-- `rime_wasm_init` (lines 106-136): acquires the capability
(`api_ok` abstracts whether `rime_get_api` returns one), starts the
service, deploys schemas, then creates a session (`create_ok`
abstracts success).  Returns the status code and the new state. -/
def rime_wasm_init (api_ok create_ok : Bool) (s : BridgeState) :
    Int × BridgeState :=
  if api_ok = false then (-1, { s with api := api_ok })
  else
    let e1 := rime_start_service (rime_setup s.engine)
    let e2 := rime_start_maintenance e1
    let p := rime_create_session create_ok e2
    if p.1 = 0 then
      (-2, { api := api_ok, session := p.1,
             engine_started := s.engine_started, engine := p.2 })
    else
      (0, { api := api_ok, session := p.1,
            engine_started := true, engine := p.2 })

/-- `rime_wasm_destroy` (lines 186-196): destroys the held session if
any, then finalizes the engine. -/
def rime_wasm_destroy (s : BridgeState) : BridgeState :=
  if s.api = false then s
  else
    let e1 := if s.session = 0 then s.engine
              else rime_destroy_session s.engine s.session
    { api := s.api, session := 0, engine_started := false,
      engine := rime_finalize e1 }

/-- A context with no composition, for concrete evaluations. -/
def sampleCtx : RimeContext :=
  { composition := { length := 0, cursor_pos := 0, sel_start := 0,
                     sel_end := 0, preedit := none },
    menu := { page_no := 0, is_last_page := true,
              highlighted_candidate_index := 0, candidates := [],
              select_keys := none },
    select_labels := none }

/-- A context with preedit "nihao" selected on bytes [1, 3). -/
def splitCtx : RimeContext :=
  { composition := { length := 5, cursor_pos := 5, sel_start := 1,
                     sel_end := 3, preedit := some ['n','i','h','a','o'] },
    menu := { page_no := 0, is_last_page := true,
              highlighted_candidate_index := 0, candidates := [],
              select_keys := none },
    select_labels := none }

/-- A context with two candidates and a one-character select-key
string, no explicit label array. -/
def fallbackCtx : RimeContext :=
  { composition := { length := 2, cursor_pos := 2, sel_start := 0,
                     sel_end := 2, preedit := some ['n','i'] },
    menu := { page_no := 0, is_last_page := true,
              highlighted_candidate_index := 0,
              candidates := [⟨some ['a'], none⟩, ⟨some ['b'], none⟩],
              select_keys := some ['1'] },
    select_labels := none }

/-- A context with two candidates and an explicit label array whose
second entry is a null pointer. -/
def labelCtx : RimeContext :=
  { composition := { length := 2, cursor_pos := 2, sel_start := 0,
                     sel_end := 2, preedit := some ['n','i'] },
    menu := { page_no := 0, is_last_page := true,
              highlighted_candidate_index := 0,
              candidates := [⟨some ['a'], none⟩, ⟨some ['b'], none⟩],
              select_keys := some ['1','2'] },
    select_labels := some [some ['1'], none] }

/-- The bridge state right after a first successful `rime_wasm_init`. -/
def bootState : BridgeState := (rime_wasm_init true true initialState).2

theorem labelsFromKeys_length (keys : Str) (n : Nat) :
    (labelsFromKeys keys n).length = min keys.length n := by
  induction keys generalizing n with
  | nil => cases n <;> simp [labelsFromKeys]
  | cons c rest ih =>
    cases n with
    | zero => simp [labelsFromKeys]
    | succ m =>
      simp only [labelsFromKeys, List.length_cons, ih]
      omega

theorem asSizeT_toNat (i : Int) (h0 : 0 ≤ i) (h1 : i < 2 ^ 32) :
    asSizeT i = i.toNat := by
  unfold asSizeT
  rw [Int.emod_eq_of_lt h0 h1]

theorem build_state_keys (sess : Nat) (hc : Bool) (t : Option Str)
    (ctx : RimeContext) :
    ((build_state sess hc t ctx).2).map Prod.fst = snapshotKeys := by
  by_cases h : 0 < ctx.composition.length ∧ ctx.composition.preedit.isSome <;>
    simp [build_state, h, snapshotKeys]

theorem build_state_committed_shape (sess : Nat) (hc : Bool)
    (t : Option Str) (ctx : RimeContext) :
    committedOk (build_state sess hc t ctx).2 := by
  cases hc <;> cases t <;> simp [committedOk, build_state, jget]

theorem process_input_snd (session : Nat) (keys : Str) (hc : Bool)
    (t : Option Str) (ctx : RimeContext) (hs : session ≠ 0) :
    (rime_wasm_process_input true session (some keys) hc t ctx).2 =
      (build_state session hc t ctx).2 := by
  simp [rime_wasm_process_input, hs]

theorem pick_candidate_snd (session : Nat) (index : Int) (hc : Bool)
    (t : Option Str) (ctx : RimeContext) (hs : session ≠ 0) :
    (rime_wasm_pick_candidate true session index hc t ctx).2 =
      (build_state session hc t ctx).2 := by
  simp [rime_wasm_pick_candidate, hs]

theorem flip_page_snd (session : Nat) (backward : Int) (hc : Bool)
    (t : Option Str) (ctx : RimeContext) (hs : session ≠ 0) :
    (rime_wasm_flip_page true session backward hc t ctx).2 =
      (build_state session hc t ctx).2 := by
  simp [rime_wasm_flip_page, hs]

/-- C9: within a projection cycle, the bridge frees the commit buffer
immediately before `get_commit` and frees the context immediately
before `get_context`, and it acquires the context unconditionally —
for every session and every engine answer, including when `get_commit`
reported no commit pending, the engine-call trace of `build_state` is
exactly free_commit, get_commit, free_context, get_context. -/
theorem C9_release_before_reacquire (sess : Nat) (hc : Bool)
    (t : Option Str) (ctx : RimeContext) :
    (build_state sess hc t ctx).1 =
      [ApiCall.free_commit, ApiCall.get_commit sess,
       ApiCall.free_context, ApiCall.get_context sess] := rfl

/-- C8: `rime_wasm_destroy` is idempotent — running it twice from any
state yields exactly the state reached by running it once (capability
flag, session handle, `engine_started` and engine-side state). -/
theorem C8_destroy_idempotent (s : BridgeState) :
    rime_wasm_destroy (rime_wasm_destroy s) = rime_wasm_destroy s := by
  by_cases h : s.api = false
  · simp [rime_wasm_destroy, h]
  · simp [rime_wasm_destroy, h, rime_destroy_session, rime_finalize]

/-- C4: the `committed` field of the projected snapshot is null
exactly when the engine reports no commit pending or the commit text
pointer is absent; otherwise it equals the committed text. -/
theorem C4_committed_null_iff (sess : Nat) (hc : Bool) (t : Option Str)
    (ctx : RimeContext) :
    (jget (build_state sess hc t ctx).2 "committed" = some Json.null ↔
      (hc = false ∨ t = none)) ∧
    (∀ s0, hc = true → t = some s0 →
      jget (build_state sess hc t ctx).2 "committed" =
        some (Json.str s0)) := by
  cases hc <;> cases t <;> simp [build_state, jget]

theorem C4_committed_null_iff_witness :
    jget (build_state 1 true (some ['o','k']) sampleCtx).2 "committed" =
      some (Json.str ['o','k']) :=
  (C4_committed_null_iff 1 true (some ['o','k']) sampleCtx).2 ['o','k'] rfl rfl

/-- C5: whenever the composition length is 0 or the preedit pointer is
absent, the snapshot holds the documented empty defaults: empty
preedit slices, cursorPos 0, no candidates, pageNo 0, isLastPage true,
highlightedIndex 0, no select labels. -/
theorem C5_empty_defaults (sess : Nat) (hc : Bool) (t : Option Str)
    (ctx : RimeContext)
    (h : ctx.composition.length = 0 ∨ ctx.composition.preedit = none) :
    jget (build_state sess hc t ctx).2 "preeditHead" = some (Json.str []) ∧
    jget (build_state sess hc t ctx).2 "preeditBody" = some (Json.str []) ∧
    jget (build_state sess hc t ctx).2 "preeditTail" = some (Json.str []) ∧
    jget (build_state sess hc t ctx).2 "cursorPos" = some (Json.int 0) ∧
    jget (build_state sess hc t ctx).2 "candidates" = some (Json.arr []) ∧
    jget (build_state sess hc t ctx).2 "pageNo" = some (Json.int 0) ∧
    jget (build_state sess hc t ctx).2 "isLastPage" = some (Json.bool true) ∧
    jget (build_state sess hc t ctx).2 "highlightedIndex" = some (Json.int 0) ∧
    jget (build_state sess hc t ctx).2 "selectLabels" = some (Json.arr []) := by
  have hcond : ¬ (0 < ctx.composition.length ∧
      ctx.composition.preedit.isSome) := by
    rcases h with h | h <;> simp [h]
  refine ⟨?_, ?_, ?_, ?_, ?_, ?_, ?_, ?_, ?_⟩ <;>
    simp [build_state, hcond, jget]

theorem C5_empty_defaults_witness :
    jget (build_state 1 false none sampleCtx).2 "preeditHead" = some (Json.str []) ∧
    jget (build_state 1 false none sampleCtx).2 "preeditBody" = some (Json.str []) ∧
    jget (build_state 1 false none sampleCtx).2 "preeditTail" = some (Json.str []) ∧
    jget (build_state 1 false none sampleCtx).2 "cursorPos" = some (Json.int 0) ∧
    jget (build_state 1 false none sampleCtx).2 "candidates" = some (Json.arr []) ∧
    jget (build_state 1 false none sampleCtx).2 "pageNo" = some (Json.int 0) ∧
    jget (build_state 1 false none sampleCtx).2 "isLastPage" = some (Json.bool true) ∧
    jget (build_state 1 false none sampleCtx).2 "highlightedIndex" = some (Json.int 0) ∧
    jget (build_state 1 false none sampleCtx).2 "selectLabels" = some (Json.arr []) :=
  C5_empty_defaults 1 false none sampleCtx (Or.inl rfl)

theorem build_state_preedit_fields (sess : Nat) (hc : Bool)
    (t : Option Str) (ctx : RimeContext) (p : Str)
    (hp : ctx.composition.preedit = some p)
    (hl : 0 < ctx.composition.length) :
    jstr (build_state sess hc t ctx).2 "preeditHead" =
      substr p 0 (asSizeT ctx.composition.sel_start) ∧
    jstr (build_state sess hc t ctx).2 "preeditBody" =
      substr p (asSizeT ctx.composition.sel_start)
        (asSizeT (ctx.composition.sel_end - ctx.composition.sel_start)) ∧
    jstr (build_state sess hc t ctx).2 "preeditTail" =
      substrFrom p (asSizeT ctx.composition.sel_end) := by
  refine ⟨?_, ?_, ?_⟩ <;> simp [jstr, jget, build_state, hp, hl]

theorem take_take_drop_concat (p : Str) (s e : Nat) (hse : s ≤ e) :
    p.take s ++ ((p.drop s).take (e - s) ++ p.drop e) = p := by
  have h1 : (p.drop s).drop (e - s) = p.drop e := by
    rw [List.drop_drop]
    congr 1
    omega
  rw [← h1, List.take_append_drop, List.take_append_drop]

/-- C1: for a valid composition (preedit present, `length` the byte
length of the preedit) with byte offsets
`0 ≤ sel_start ≤ sel_end ≤ len(preedit)`, the snapshot's three preedit
slices are `preedit[0, sel_start)`, `preedit[sel_start, sel_end)` and
`preedit[sel_end, end)`; their concatenation is the preedit, the head
has length `sel_start`, and head plus body have length `sel_end`. -/
theorem C1_preedit_split (sess : Nat) (hc : Bool) (t : Option Str)
    (ctx : RimeContext) (p : Str)
    (hp : ctx.composition.preedit = some p)
    (hlen : ctx.composition.length = (p.length : Int))
    (hsize : p.length < 2 ^ 31)
    (h0 : 0 ≤ ctx.composition.sel_start)
    (h1 : ctx.composition.sel_start ≤ ctx.composition.sel_end)
    (h2 : ctx.composition.sel_end ≤ (p.length : Int)) :
    jstr (build_state sess hc t ctx).2 "preeditHead" =
      p.take ctx.composition.sel_start.toNat ∧
    jstr (build_state sess hc t ctx).2 "preeditBody" =
      (p.drop ctx.composition.sel_start.toNat).take
        (ctx.composition.sel_end.toNat - ctx.composition.sel_start.toNat) ∧
    jstr (build_state sess hc t ctx).2 "preeditTail" =
      p.drop ctx.composition.sel_end.toNat ∧
    jstr (build_state sess hc t ctx).2 "preeditHead" ++
      jstr (build_state sess hc t ctx).2 "preeditBody" ++
      jstr (build_state sess hc t ctx).2 "preeditTail" = p ∧
    (jstr (build_state sess hc t ctx).2 "preeditHead").length =
      ctx.composition.sel_start.toNat ∧
    (jstr (build_state sess hc t ctx).2 "preeditHead").length +
      (jstr (build_state sess hc t ctx).2 "preeditBody").length =
      ctx.composition.sel_end.toNat := by
  rcases Nat.eq_zero_or_pos p.length with hz | hpos
  · have hpnil : p = [] := List.length_eq_zero.mp hz
    have hcond : ¬ (0 < ctx.composition.length ∧
        ctx.composition.preedit.isSome) := by
      simp [hlen, hz]
    have hs0 : ctx.composition.sel_start.toNat = 0 := by omega
    have he0 : ctx.composition.sel_end.toNat = 0 := by
      rw [hz] at h2
      omega
    simp [jstr, jget, build_state, hcond, hpnil, hs0, he0]
  · have hl : 0 < ctx.composition.length := by
      rw [hlen]
      exact_mod_cast hpos
    have hee : ctx.composition.sel_end < 2 ^ 32 := by
      have : ((2 : Int) ^ 31) < 2 ^ 32 := by norm_num
      calc ctx.composition.sel_end ≤ (p.length : Int) := h2
        _ < 2 ^ 31 := by exact_mod_cast hsize
        _ < 2 ^ 32 := this
    have hA : asSizeT ctx.composition.sel_start =
        ctx.composition.sel_start.toNat :=
      asSizeT_toNat _ h0 (lt_of_le_of_lt h1 hee)
    have hB : asSizeT ctx.composition.sel_end =
        ctx.composition.sel_end.toNat :=
      asSizeT_toNat _ (le_trans h0 h1) hee
    have hBA : asSizeT (ctx.composition.sel_end - ctx.composition.sel_start) =
        ctx.composition.sel_end.toNat - ctx.composition.sel_start.toNat := by
      rw [asSizeT_toNat _ (by omega) (by omega)]
      omega
    obtain ⟨f1, f2, f3⟩ := build_state_preedit_fields sess hc t ctx p hp hl
    rw [f1, f2, f3, hA, hB, hBA]
    have hse : ctx.composition.sel_start.toNat ≤
        ctx.composition.sel_end.toNat := by omega
    refine ⟨by simp [substr], rfl, rfl, ?_, ?_, ?_⟩
    · simp only [substr, substrFrom, List.drop_zero, List.append_assoc]
      exact take_take_drop_concat p _ _ hse
    · simp only [substr, List.drop_zero, List.length_take]
      omega
    · simp only [substr, List.drop_zero, List.length_take, List.length_drop]
      omega

theorem C1_preedit_split_witness :
    jstr (build_state 1 false none splitCtx).2 "preeditHead" ++
      jstr (build_state 1 false none splitCtx).2 "preeditBody" ++
      jstr (build_state 1 false none splitCtx).2 "preeditTail" =
      ['n','i','h','a','o'] ∧
    (jstr (build_state 1 false none splitCtx).2 "preeditHead").length = 1 ∧
    (jstr (build_state 1 false none splitCtx).2 "preeditHead").length +
      (jstr (build_state 1 false none splitCtx).2 "preeditBody").length = 3 := by
  have h := C1_preedit_split 1 false none splitCtx ['n','i','h','a','o']
    rfl rfl (by decide) (by decide) (by decide) (by decide)
  refine ⟨?_, ?_, ?_⟩
  · exact h.2.2.2.1
  · exact h.2.2.2.2.1
  · exact h.2.2.2.2.2

theorem build_state_label_fields (sess : Nat) (hc : Bool)
    (t : Option Str) (ctx : RimeContext) (p : Str)
    (hp : ctx.composition.preedit = some p)
    (hl : 0 < ctx.composition.length) :
    jarr (build_state sess hc t ctx).2 "selectLabels" = selectLabelsOf ctx ∧
    (jarr (build_state sess hc t ctx).2 "candidates").length =
      ctx.menu.candidates.length := by
  constructor <;> simp [jarr, jget, build_state, hp, hl]

/-- C6: with no explicit label array but a compact select-key string,
the labels are one single-character string per candidate, walking the
key string and stopping when it ends: the label count is
`min(len(keys), len(candidates))`, so a key string strictly shorter
than the candidate count yields strictly fewer labels than candidates
in the snapshot. -/
theorem C6_select_keys_fallback (sess : Nat) (hc : Bool)
    (t : Option Str) (ctx : RimeContext) (p keys : Str)
    (hp : ctx.composition.preedit = some p)
    (hl : 0 < ctx.composition.length)
    (hnolab : ctx.select_labels = none)
    (hkeys : ctx.menu.select_keys = some keys) :
    (jarr (build_state sess hc t ctx).2 "selectLabels").length =
      min keys.length
        (jarr (build_state sess hc t ctx).2 "candidates").length ∧
    (keys.length < (jarr (build_state sess hc t ctx).2 "candidates").length →
      (jarr (build_state sess hc t ctx).2 "selectLabels").length <
        (jarr (build_state sess hc t ctx).2 "candidates").length) := by
  obtain ⟨hlab, hcand⟩ := build_state_label_fields sess hc t ctx p hp hl
  rw [hlab, hcand, selectLabelsOf, hnolab, hkeys]
  rw [labelsFromKeys_length]
  exact ⟨rfl, fun hlt => by omega⟩

theorem C6_select_keys_fallback_witness :
    (jarr (build_state 1 false none fallbackCtx).2 "selectLabels").length <
      (jarr (build_state 1 false none fallbackCtx).2 "candidates").length := by
  have h := C6_select_keys_fallback 1 false none fallbackCtx ['n','i'] ['1']
    rfl (by decide) rfl rfl
  exact h.2 (by decide)

/-- C7: with an explicit per-candidate label array present, the
snapshot holds exactly one label per candidate — index `i` takes entry
`i` of the array, a null entry becoming the empty string — so the
label list and the candidate list have the same length. -/
theorem C7_explicit_labels (sess : Nat) (hc : Bool) (t : Option Str)
    (ctx : RimeContext) (p : Str) (ls : List (Option Str))
    (hp : ctx.composition.preedit = some p)
    (hl : 0 < ctx.composition.length)
    (hlab : ctx.select_labels = some ls) :
    jarr (build_state sess hc t ctx).2 "selectLabels" =
      (List.range ctx.menu.candidates.length).map
        (fun i => Json.str (((ls[i]?).getD none).getD [])) ∧
    (jarr (build_state sess hc t ctx).2 "selectLabels").length =
      (jarr (build_state sess hc t ctx).2 "candidates").length := by
  obtain ⟨hlab2, hcand⟩ := build_state_label_fields sess hc t ctx p hp hl
  rw [hlab2, hcand, selectLabelsOf, hlab]
  constructor
  · rfl
  · simp [explicitLabels]

theorem C7_explicit_labels_witness :
    jarr (build_state 1 false none labelCtx).2 "selectLabels" =
      [Json.str ['1'], Json.str []] ∧
    (jarr (build_state 1 false none labelCtx).2 "selectLabels").length =
      (jarr (build_state 1 false none labelCtx).2 "candidates").length := by
  have h := C7_explicit_labels 1 false none labelCtx ['n','i']
    [some ['1'], none] rfl (by decide) rfl
  exact ⟨by rw [h.1]; rfl, h.2⟩

/-- C2 counterexample: when the engine capability (and session) is
absent, `rime_wasm_process_input` returns the empty object `"{}"`,
which contains none of the Snapshot keys — in particular `committed`
is omitted — refuting the claim for the capability-absent case. -/
theorem C2_counterexample :
    (rime_wasm_process_input false 0 (some ['a']) false none sampleCtx).2
      = [] ∧
    jget (rime_wasm_process_input false 0 (some ['a']) false none
      sampleCtx).2 "committed" = none ∧
    ¬ ((rime_wasm_process_input false 0 (some ['a']) false none
        sampleCtx).2.map Prod.fst = snapshotKeys) := by
  refine ⟨rfl, rfl, ?_⟩
  decide

/-- C2 amended: every snapshot returned by feedInput / pickCandidate /
flipPage WHEN the engine capability and a session are present (and,
for feedInput, the key string argument is non-null) is an object with
exactly the Snapshot keys, `committed` present as a string or null and
every other key present; when the capability or session is absent the
operations instead return the empty object. -/
theorem C2_amended (session : Nat) (keys : Str) (index backward : Int)
    (hc : Bool) (t : Option Str) (ctx : RimeContext)
    (hs : session ≠ 0) :
    ((rime_wasm_process_input true session (some keys) hc t ctx).2.map
        Prod.fst = snapshotKeys ∧
      committedOk (rime_wasm_process_input true session (some keys)
        hc t ctx).2) ∧
    ((rime_wasm_pick_candidate true session index hc t ctx).2.map
        Prod.fst = snapshotKeys ∧
      committedOk (rime_wasm_pick_candidate true session index
        hc t ctx).2) ∧
    ((rime_wasm_flip_page true session backward hc t ctx).2.map
        Prod.fst = snapshotKeys ∧
      committedOk (rime_wasm_flip_page true session backward
        hc t ctx).2) := by
  rw [process_input_snd session keys hc t ctx hs,
      pick_candidate_snd session index hc t ctx hs,
      flip_page_snd session backward hc t ctx hs]
  exact ⟨⟨build_state_keys session hc t ctx,
          build_state_committed_shape session hc t ctx⟩,
         ⟨build_state_keys session hc t ctx,
          build_state_committed_shape session hc t ctx⟩,
         ⟨build_state_keys session hc t ctx,
          build_state_committed_shape session hc t ctx⟩⟩

theorem C2_amended_witness :
    (rime_wasm_process_input true 1 (some ['a']) false none
      sampleCtx).2.map Prod.fst = snapshotKeys :=
  (C2_amended 1 ['a'] 0 0 false none sampleCtx (by decide)).1.1

/-- C3 counterexample: starting from the unused state, two successful
`rime_wasm_init` calls in a row leave TWO live sessions on the engine
side — the second initialization overwrites the bridge's handle
without destroying the first session — refuting "at most one session
exists" and "a previously live session is destroyed before a new one
is created on re-initialization". -/
theorem C3_counterexample :
    ¬ ((rime_wasm_init true true
          (rime_wasm_init true true initialState).2).2.engine.liveSessions.length ≤ 1) ∧
    (rime_wasm_init true true initialState).2.session ∈
      (rime_wasm_init true true
        (rime_wasm_init true true initialState).2).2.engine.liveSessions := by
  decide

/-- C3 amended: a session is created only during initialize, and
`rime_wasm_destroy` destroys the held session (removing it from the
engine's live sessions) and clears the handle; but a repeated
initialize does NOT destroy the previously live session — it remains
live on the engine side, only its handle is overwritten. -/
theorem C3_amended (s : BridgeState) (hs : s.session ≠ 0)
    (hlive : s.session ∈ s.engine.liveSessions) :
    s.session ∈ ((rime_wasm_init true true s).2).engine.liveSessions ∧
    (s.api = true →
      (rime_wasm_destroy s).session = 0 ∧
      (rime_wasm_destroy s).engine.liveSessions =
        s.engine.liveSessions.erase s.session) := by
  constructor
  · have hmem : s.session ∈ s.engine.liveSessions ++
        [s.engine.nextSession] := List.mem_append_left _ hlive
    simp only [rime_wasm_init, rime_setup, rime_start_service,
               rime_start_maintenance, rime_create_session, if_true]
    norm_num
    split <;> simpa using hmem
  · intro hapi
    have hnf : ¬ (s.api = false) := by simp [hapi]
    simp [rime_wasm_destroy, hnf, hs, rime_destroy_session,
          rime_finalize]

theorem C3_amended_witness :
    bootState.session ∈
      ((rime_wasm_init true true bootState).2).engine.liveSessions ∧
    ((rime_wasm_destroy bootState).session = 0 ∧
      (rime_wasm_destroy bootState).engine.liveSessions =
        bootState.engine.liveSessions.erase bootState.session) :=
  ⟨(C3_amended bootState (by decide) (by decide)).1,
   (C3_amended bootState (by decide) (by decide)).2 (by decide)⟩

/-- C10: `rime_wasm_pick_candidate` on a live session forwards any
integer index — negative or past the current page — verbatim to
`select_candidate_on_current_page`, with no validation or clamping,
and always returns the projected snapshot (a well-formed object with
exactly the Snapshot keys), never an error value. -/
theorem C10_pick_forwards_index (index : Int) (sess : Nat) (hc : Bool)
    (t : Option Str) (ctx : RimeContext) (hs : sess ≠ 0) :
    (rime_wasm_pick_candidate true sess index hc t ctx).1 =
      ApiCall.select_candidate_on_current_page sess index ::
        (build_state sess hc t ctx).1 ∧
    (rime_wasm_pick_candidate true sess index hc t ctx).2 =
      (build_state sess hc t ctx).2 ∧
    (rime_wasm_pick_candidate true sess index hc t ctx).2.map
      Prod.fst = snapshotKeys := by
  refine ⟨?_, pick_candidate_snd sess index hc t ctx hs, ?_⟩
  · simp [rime_wasm_pick_candidate, hs]
  · rw [pick_candidate_snd sess index hc t ctx hs]
    exact build_state_keys sess hc t ctx

theorem C10_pick_forwards_index_witness :
    (rime_wasm_pick_candidate true 1 (-7) false none sampleCtx).1 =
      ApiCall.select_candidate_on_current_page 1 (-7) ::
        (build_state 1 false none sampleCtx).1 ∧
    (rime_wasm_pick_candidate true 1 (-7) false none sampleCtx).2 =
      (build_state 1 false none sampleCtx).2 ∧
    (rime_wasm_pick_candidate true 1 (-7) false none sampleCtx).2.map
      Prod.fst = snapshotKeys :=
  C10_pick_forwards_index (-7) 1 false none sampleCtx (by decide)
